import Mathlib

/-!
A shallow embedding of the capture pipeline of the pitch-deck downloader
(src/pitch_downloader_nuclear.py, src/app.py, src/utils.py), with theorems
settling the specification claims about it.

External interactions (the remote page, the browser, the wall clock, temp
file naming) are supplied through environment records; the Python control
flow over those inputs is translated directly from the source.
-/

namespace PitchDeck

/-- Digits of an ASCII decimal numeral folded into a natural number. -/
def digitsToNat (cs : List Char) : Nat :=
  cs.foldl (fun a c => a * 10 + (c.toNat - 48)) 0

/-- Model of Python int(s) on a string: an optional sign followed by one or
more ASCII digits (underscore separators and non-ASCII digit forms are not
modelled).  Returns none where int() raises ValueError. -/
def pyInt (s : String) : Option Int :=
  match s.toList with
  | [] => none
  | '+' :: rest =>
    if !rest.isEmpty && rest.all Char.isDigit then some (digitsToNat rest) else none
  | '-' :: rest =>
    if !rest.isEmpty && rest.all Char.isDigit then some (-(digitsToNat rest : Int)) else none
  | cs =>
    if cs.all Char.isDigit then some (digitsToNat cs) else none

/-- Model of Python str.split(sep) on character lists: acc accumulates the
current field in reverse. -/
def pySplitAux (sep : Char) : List Char → List Char → List (List Char)
  | acc, [] => [acc.reverse]
  | acc, c :: cs =>
    if c = sep then acc.reverse :: pySplitAux sep [] cs
    else pySplitAux sep (c :: acc) cs

/-- Model of Python str.split(sep) for a one-character separator. -/
def pySplit (sep : Char) (s : String) : List String :=
  (pySplitAux sep [] s.toList).map String.mk

/-- Model of Python str.strip(): drop whitespace from both ends. -/
def pyStrip (s : String) : String :=
  String.mk (((s.toList.dropWhile Char.isWhitespace).reverse.dropWhile Char.isWhitespace).reverse)

/-- Method 1 of NuclearPitchDownloader.detect_slide_count: given the counter
element text, require a nonempty text containing a slash, split on the slash
into exactly two parts, parse the second as an int and clamp it to
max_slides.  Returns none on any failure, which makes the cascade fall
through to the next method (the Python code reaches the next block both on a
caught exception and on a failed parse). -/
def parseCounterText (maxSlides : Int) (s : String) : Option Int :=
  if s ≠ "" ∧ s.toList.contains '/' then
    match pySplit '/' s with
    | [_p1, p2] => (pyInt (pyStrip p2)).map (fun total => min total maxSlides)
    | _ => none
  else none

/-- Method 2 inner loop: the first regex match (current, total) with
1 <= current <= total <= 50 wins and is clamped to max_slides.  Match groups
are digit strings, so the int() conversions in the source cannot fail. -/
def scanMatches (maxSlides : Int) : List (Nat × Nat) → Option Int
  | [] => none
  | (current, total) :: rest =>
    if 1 ≤ current ∧ current ≤ total ∧ total ≤ 50 then some (min (total : Int) maxSlides)
    else scanMatches maxSlides rest

/-- Method 2 outer loop over the three regex patterns, in order. -/
def scanPatterns (maxSlides : Int) : List (List (Nat × Nat)) → Option Int
  | [] => none
  | ms :: rest =>
    match scanMatches maxSlides ms with
    | some n => some n
    | none => scanPatterns maxSlides rest

/-- Outcome of one iteration of the method 3 navigation test: the arrow key
press or the disabled-probe evaluation raised (perror), the Next button
reported disabled, or navigation can continue. -/
inductive ProbeStep where
  | perror
  | disabled
  | enabled
deriving DecidableEq

/-- The loop of method 3 (navigation test).  fuel counts the remaining
iterations of range(max_test), i is the iteration index and sc the running
slide_count.  On a disabled Next button the source returns slide_count + 1
without clamping; on loop exhaustion or an iteration error it returns
min(slide_count, max_slides). -/
def navProbeGo (maxSlides : Int) (steps : Nat → ProbeStep) : Nat → Nat → Nat → Int
  | 0, _i, sc => min (sc : Int) maxSlides
  | fuel + 1, i, sc =>
    match steps i with
    | ProbeStep.disabled => (sc : Int) + 1
    | ProbeStep.enabled => navProbeGo maxSlides steps fuel (i + 1) (sc + 1)
    | ProbeStep.perror => min (sc : Int) maxSlides

/-- Method 3 entry: max_test = min(20, max_slides) iterations starting from
slide_count = 1. -/
def navProbe (maxSlides : Int) (steps : Nat → ProbeStep) : Int :=
  navProbeGo maxSlides steps (min 20 maxSlides).toNat 0 1

/-- Environment for detect_slide_count.  counterText is the trimmed text of
the slide-counter element (none when the selector wait raised or the element
was absent); textMatches holds, per regex pattern, the numeric pairs
re.findall produced from the page text (the page text itself comes from an
external evaluate call); textSearchError and navSetupError model exceptions
raised by the corresponding page interactions. -/
structure DetectEnv where
  counterText : Option String
  textSearchError : Bool
  textMatches : List (List (Nat × Nat))
  navSetupError : Bool
  navSteps : Nat → ProbeStep

/-- NuclearPitchDownloader.detect_slide_count: method 1 (counter element),
then method 2 (page-text patterns), then method 3 (navigation test), then
the fixed default 9. -/
def detect_slide_count (maxSlides : Int) (env : DetectEnv) : Int :=
  match env.counterText.bind (fun s => parseCounterText maxSlides s) with
  | some n => n
  | none =>
    match (if env.textSearchError then none else scanPatterns maxSlides env.textMatches) with
    | some n => n
    | none =>
      if env.navSetupError then 9 else navProbe maxSlides env.navSteps

/-- Raster image bytes. -/
abbrev Img := List Nat

/-- Outcome of the readiness waitForFunction in capture_slide: it either
succeeds within the poll window, times out, or the probe itself errors.  In
the source the latter two raise, which the try block catches. -/
inductive ReadyOutcome where
  | ready
  | timeout
  | probeError
deriving DecidableEq

/-- Per-slide environment: the readiness outcome and the screenshot bytes
(none when the screenshot call raises). -/
structure SlideEnv where
  readiness : ReadyOutcome
  shot : Option Img

/-- Observable browser effects of one download session. -/
inductive Eff where
  | launchBrowser
  | navigate
  | detectSlides
  | pressHome
  | clockCheck (i : Nat)
  | readinessPoll (i : Nat)
  | screenshot (i : Nat)
  | pressNext (i : Nat)
  | assemble
  | closeBrowser
deriving DecidableEq

/-- The slide index an effect acts on, for capture and navigation effects. -/
def Eff.actIdx : Eff → Option Nat
  | Eff.readinessPoll i => some i
  | Eff.screenshot i => some i
  | Eff.pressNext i => some i
  | _ => none

/-- NuclearPitchDownloader.capture_slide: wait for readiness, then take the
screenshot.  A readiness timeout or probe error raises out of the wait, is
caught by the enclosing try, and yields None without any screenshot being
taken; a screenshot error likewise yields None. -/
def capture_slide (e : SlideEnv) (i : Nat) : Option Img × List Eff :=
  match e.readiness with
  | ReadyOutcome.ready =>
    match e.shot with
    | some img => (some img, [Eff.readinessPoll i, Eff.screenshot i])
    | none => (none, [Eff.readinessPoll i, Eff.screenshot i])
  | _ => (none, [Eff.readinessPoll i])

/-- Launch outcome: launch() itself raised (no browser object), newPage()
raised after the browser object was assigned, or both succeeded. -/
inductive LaunchOutcome where
  | failLaunch
  | failNewPage
  | ok
deriving DecidableEq

/-- Downloader configuration: the constructor arguments of
NuclearPitchDownloader. -/
structure RunCfg where
  maxSlides : Int
  timeout : Int

/-- Environment of one download_presentation call. -/
structure RunEnv where
  launch : LaunchOutcome
  navigateOk : Bool
  detect : DetectEnv
  elapsedAt : Nat → Int
  slide : Nat → SlideEnv
  pdfOk : Bool
  tmp : Nat → String

/-- The per-slide loop of download_presentation
(for slide_num in range(1, total_slides + 1)): at the top of each iteration
the wall clock is checked and the loop breaks once
elapsed > timeout - 30; otherwise the slide is captured (the frame appended
only when capture returned bytes) and, for every slide but the last, the
Next key is pressed.  fuel is the number of remaining iterations and s the
current slide number. -/
def captureLoopAux (cfg : RunCfg) (env : RunEnv) (total : Int) : Nat → Nat → List (Nat × Img) × List Eff
  | _s, 0 => ([], [])
  | s, fuel + 1 =>
    if env.elapsedAt s > cfg.timeout - 30 then ([], [Eff.clockCheck s])
    else
      let cap := capture_slide (env.slide s) s
      let here : List (Nat × Img) := match cap.1 with
        | some img => [(s, img)]
        | none => []
      let nav : List Eff := if (s : Int) < total then [Eff.pressNext s] else []
      let rest := captureLoopAux cfg env total (s + 1) fuel
      (here ++ rest.1, Eff.clockCheck s :: (cap.2 ++ nav ++ rest.2))

/-- The whole capture loop, starting at slide 1 with total iterations. -/
def captureLoop (cfg : RunCfg) (env : RunEnv) (total : Int) : List (Nat × Img) × List Eff :=
  captureLoopAux cfg env total 1 total.toNat

/-- One page of the assembled document: the image drawn full page at
landscape(letter) = 792 x 612 points. -/
structure PdfPage where
  image : Img
  width : Int
  height : Int
deriving DecidableEq

/-- The page-composition loop of create_pdf_from_screenshots: each screenshot
is drawn full page on its own landscape page, showPage separates consecutive
pages and save commits the last one, so the committed pages are one per
screenshot, in input order. -/
def buildPages : List Img → List PdfPage
  | [] => []
  | s :: rest => { image := s, width := 792, height := 612 } :: buildPages rest

/-- create_pdf_from_screenshots modelled at page-structure level.  tmp
supplies the names mkstemp would return (index 0 the output pdf path, later
indices the per-slide temp image paths); the page structure does not depend
on them. -/
def create_pdf_from_screenshots (tmp : Nat → String) (shots : List Img) : String × List PdfPage :=
  (tmp 0, buildPages shots)

/-- Result dictionary of download_presentation (frames and pages are the
model-level observations of the screenshots list and of the assembled
document). -/
structure RunResult where
  success : Bool
  error : Option String
  slides : Nat
  frames : List (Nat × Img)
  pages : List PdfPage
deriving DecidableEq

/-- A failure dictionary. -/
def failResult (msg : String) (frames : List (Nat × Img)) : RunResult :=
  { success := false, error := some msg, slides := 0, frames := frames, pages := [] }

/-- The try block of download_presentation: launch, navigate, detect, home,
capture loop, the no-frames check, pdf assembly.  A pdf assembly error
re-raises and is caught by the outer except, which returns a failure
dictionary. -/
def downloadBody (cfg : RunCfg) (env : RunEnv) : RunResult × List Eff :=
  match env.launch with
  | LaunchOutcome.failLaunch => (failResult "Browser launch failed" [], [])
  | LaunchOutcome.failNewPage => (failResult "Browser launch failed" [], [Eff.launchBrowser])
  | LaunchOutcome.ok =>
    if env.navigateOk = false then
      (failResult "Navigation failed" [], [Eff.launchBrowser, Eff.navigate])
    else
      let total := detect_slide_count cfg.maxSlides env.detect
      let loop := captureLoop cfg env total
      let effs := Eff.launchBrowser :: Eff.navigate :: Eff.detectSlides :: Eff.pressHome :: loop.2
      if loop.1 = [] then
        (failResult "No slides captured" [], effs)
      else if env.pdfOk = false then
        (failResult "PDF creation failed" loop.1, effs ++ [Eff.assemble])
      else
        ({ success := true, error := none, slides := loop.1.length, frames := loop.1,
           pages := (create_pdf_from_screenshots env.tmp (loop.1.map Prod.snd)).2 },
         effs ++ [Eff.assemble])

/-- Whether self.browser was assigned (launch() returned a browser object,
even if newPage() then failed). -/
def browserLaunched (env : RunEnv) : Bool :=
  match env.launch with
  | LaunchOutcome.failLaunch => false
  | _ => true

/-- download_presentation: the body wrapped in the finally clause, which
closes the browser whenever self.browser was assigned (on success, failure
and exception paths alike). -/
def download_presentation (cfg : RunCfg) (env : RunEnv) : RunResult × List Eff :=
  let body := downloadBody cfg env
  if browserLaunched env then (body.1, body.2 ++ [Eff.closeBrowser]) else body

/-- Consume an exact literal at the head of a character list; afterwards
return the remainder. -/
def afterLit : List Char → List Char → Option (List Char)
  | [], cs => some cs
  | _ :: _, [] => none
  | l :: ls, c :: cs => if c = l then afterLit ls cs else none

/-- The character class [a-f0-9-] of the uuid path patterns. -/
def hexDash (c : Char) : Bool :=
  (decide ('a' ≤ c) && decide (c ≤ 'f')) || c.isDigit || c == '-'

/-- Matches the regex fragment [a-f0-9-]+/[a-f0-9-]+ at the head of a
character list: a maximal nonempty run of hexDash characters, a slash, then
at least one hexDash character (the slash is not in the class, so the greedy
first run needs no backtracking). -/
def twoHexSegs (cs : List Char) : Bool :=
  match cs.takeWhile hexDash, cs.dropWhile hexDash with
  | [], _ => false
  | _ :: _, '/' :: c :: _ => hexDash c
  | _, _ => false

/-- re.match of the pattern /v/[^/]+ anchored at the start of the path. -/
def matchV (path : String) : Bool :=
  match afterLit ('/' :: 'v' :: '/' :: []) path.toList with
  | some (c :: _) => c != '/'
  | _ => false

/-- re.match of a pattern made of a literal followed by
[a-f0-9-]+/[a-f0-9-]+, anchored at the start of the path. -/
def matchLitTwoHex (lit : List Char) (path : String) : Bool :=
  match afterLit lit path.toList with
  | some t => twoHexSegs t
  | none => false

/-- re.match of the pattern /public/[a-f0-9-]+/[a-f0-9-]+ anchored at the
start of the path. -/
def matchPublic (path : String) : Bool :=
  matchLitTwoHex "/public/".toList path

/-- re.match of the pattern /app/public/player/[a-f0-9-]+/[a-f0-9-]+
anchored at the start of the path. -/
def matchPlayer (path : String) : Bool :=
  matchLitTwoHex "/app/public/player/".toList path

/-- Result of urllib.parse.urlsplit restricted to the fields the validator
reads. -/
structure UrlParts where
  scheme : String
  netloc : String
  path : String
deriving DecidableEq

/-- Characters allowed in a scheme after its leading letter. -/
def schemeChar (c : Char) : Bool :=
  c.isAlphanum || c == '+' || c == '-' || c == '.'

/-- The scheme-splitting step of urlsplit: a leading letter followed by
scheme characters up to the first colon; the scheme is lowercased and the
colon consumed, otherwise the input is left untouched. -/
def splitScheme (cs : List Char) : List Char × List Char :=
  match cs.takeWhile (fun c => c != ':'), cs.dropWhile (fun c => c != ':') with
  | c0 :: tail, ':' :: after =>
    if c0.isAlpha && tail.all schemeChar then ((c0 :: tail).map Char.toLower, after)
    else ([], cs)
  | _, _ => ([], cs)

/-- Characters that may appear inside a netloc (it ends at a slash, query or
fragment delimiter). -/
def netlocChar (c : Char) : Bool :=
  c != '/' && c != '?' && c != '#'

/-- The netloc-splitting step of urlsplit: after a leading double slash the
netloc runs to the first slash, question mark or hash. -/
def splitNetloc (cs : List Char) : List Char × List Char :=
  match cs with
  | '/' :: '/' :: rest => (rest.takeWhile netlocChar, rest.dropWhile netlocChar)
  | _ => ([], cs)

/-- Characters that may appear in a path (query and fragment are cut off). -/
def pathChar (c : Char) : Bool :=
  c != '?' && c != '#'

/-- Characters the WHATWG rule strips from the front of a URL before
parsing: C0 controls and space (code points up to 0x20). -/
def c0ControlOrSpace (c : Char) : Bool :=
  c.toNat ≤ 32

/-- The unsafe URL bytes urlsplit removes everywhere in the URL: tab,
carriage return and line feed. -/
def unsafeUrlChar (c : Char) : Bool :=
  c == '\t' || c == '\r' || c == '\n'

/-- The params split of urlparse: when the path contains a semicolon,
everything from the first semicolon of the last path segment (after the
last slash, or of the whole path when it has no slash) is moved out of the
path into params. -/
def cutParams (path : List Char) : List Char :=
  if path.contains ';' then
    match path.reverse.span (fun c => c != '/') with
    | (_revSeg, []) => path.takeWhile (fun c => c != ';')
    | (revSeg, revRest) => revRest.reverse ++ revSeg.reverse.takeWhile (fun c => c != ';')
  else path

/-- Model of urllib.parse.urlparse for the scheme, netloc and path fields as
validate_pitch_url consumes them: the WHATWG strip of leading control
characters and spaces, removal of the unsafe tab/CR/LF bytes, the scheme
and netloc splits, cutting the path at the first query or fragment
delimiter, and the params split from the last path segment.  Query,
fragment and params contents are discarded (the validator never reads
them), and the ValueError urlparse raises on malformed bracketed hosts is
not modelled: the validator catches it and returns False exactly as it does
for a netloc matching no allowed domain. -/
def pyUrlsplit (url : String) : UrlParts :=
  let cs := (url.toList.dropWhile c0ControlOrSpace).filter (fun c => !unsafeUrlChar c)
  let sp := splitScheme cs
  let np := splitNetloc sp.2
  { scheme := String.mk sp.1, netloc := String.mk np.1,
    path := String.mk (cutParams (np.2.takeWhile pathChar)) }

/-- validate_pitch_url from src/utils.py: nonempty URL, nonempty scheme and
netloc, netloc equal to one of the three pitch.com domains, and the path
matching one of the three anchored patterns, in order. -/
def validate_pitch_url (url : String) : Bool :=
  if url = "" then false
  else if (pyUrlsplit url).scheme = "" ∨ (pyUrlsplit url).netloc = "" then false
  else if ¬((pyUrlsplit url).netloc = "pitch.com" ∨ (pyUrlsplit url).netloc = "app.pitch.com" ∨
      (pyUrlsplit url).netloc = "www.pitch.com") then false
  else matchV (pyUrlsplit url).path || matchPublic (pyUrlsplit url).path ||
    matchPlayer (pyUrlsplit url).path

/-- Server configuration of src/app.py. -/
structure AppConfig where
  MAX_SLIDES : Int
  TIMEOUT : Int

/-- The request body of /api/download as the handler reads it. -/
structure AppRequest where
  hasJson : Bool
  url : Option String
  optMaxSlides : Option Int

/-- Observable effects of the request handler. -/
inductive AppEffect where
  | createDownloader (maxSlides : Int) (timeout : Int)
  | runDownload (url : String)
deriving DecidableEq

/-- The HTTP response shape the handler returns. -/
structure AppResponse where
  status : Nat
  ok : Bool
  errMsg : Option String
deriving DecidableEq

/-- The effective slide budget of a request:
min(options.get(max_slides, MAX_SLIDES), MAX_SLIDES). -/
def effectiveMaxSlides (cfg : AppConfig) (req : AppRequest) : Int :=
  min (req.optMaxSlides.getD cfg.MAX_SLIDES) cfg.MAX_SLIDES

/-- The /api/download handler of src/app.py: reject missing JSON, a missing
or empty URL, and an invalid URL, in that order, before any downloader is
constructed; otherwise run the downloader with the effective slide budget
and shape the response from its result. -/
def app_download (cfg : AppConfig) (req : AppRequest) (env : RunEnv) : AppResponse × List AppEffect :=
  if req.hasJson = false then
    ({ status := 400, ok := false, errMsg := some "No JSON data provided" }, [])
  else
    match req.url with
    | none => ({ status := 400, ok := false, errMsg := some "URL is required" }, [])
    | some url =>
      if url = "" then ({ status := 400, ok := false, errMsg := some "URL is required" }, [])
      else if validate_pitch_url url = false then
        ({ status := 400, ok := false, errMsg := some "Invalid Pitch.com URL" }, [])
      else
        let ms := effectiveMaxSlides cfg req
        let result := (download_presentation { maxSlides := ms, timeout := cfg.TIMEOUT } env).1
        let effs := [AppEffect.createDownloader ms cfg.TIMEOUT, AppEffect.runDownload url]
        if result.success = false then
          ({ status := 500, ok := false, errMsg := result.error }, effs)
        else
          ({ status := 200, ok := true, errMsg := none }, effs)

/-- The indices 1..k, the shape a gap-free frame index sequence would have. -/
def contiguousFrom1 (l : List Nat) : Prop :=
  l = (List.range l.length).map (fun n => n + 1)

/-- A navigation-probe oracle whose first step already errors. -/
def stepsEnd : Nat → ProbeStep := fun _ => ProbeStep.perror

/-- Detection environment in which every strategy fails, so the fixed
default 9 is returned. -/
def detectFallback : DetectEnv :=
  { counterText := none, textSearchError := false, textMatches := [[], [], []],
    navSetupError := true, navSteps := stepsEnd }

/-- Detection environment whose counter element carries the given text. -/
def detectCounter (s : String) : DetectEnv :=
  { counterText := some s, textSearchError := false, textMatches := [[], [], []],
    navSetupError := true, navSteps := stepsEnd }

/-- Detection environment whose page text yields the single match (c, t). -/
def detectVia (c t : Nat) : DetectEnv :=
  { counterText := none, textSearchError := false, textMatches := [[(c, t)]],
    navSetupError := true, navSteps := stepsEnd }

/-- Slides that are always ready and always photograph successfully. -/
def slideAlwaysOk : Nat → SlideEnv := fun _ => { readiness := ReadyOutcome.ready, shot := some [7] }

/-- Slides whose readiness poll always times out. -/
def slideAlwaysFail : Nat → SlideEnv := fun _ => { readiness := ReadyOutcome.timeout, shot := some [7] }

/-- Slides where exactly slide 2 times out its readiness poll. -/
def slidesGap : Nat → SlideEnv := fun i =>
  if i = 2 then { readiness := ReadyOutcome.timeout, shot := some [7] }
  else { readiness := ReadyOutcome.ready, shot := some [7] }

/-- Slides where exactly slide 1 times out its readiness poll. -/
def slidesSkipFirst : Nat → SlideEnv := fun i =>
  if i = 1 then { readiness := ReadyOutcome.timeout, shot := some [7] }
  else { readiness := ReadyOutcome.ready, shot := some [7] }

/-- Constant temp-file namer. -/
def tmp0 : Nat → String := fun _ => "tmp"

/-- A run environment with a healthy browser, zero elapsed time and working
pdf assembly, parameterised by detection and slide behaviour. -/
def envAllOk (d : DetectEnv) (sl : Nat → SlideEnv) : RunEnv :=
  { launch := LaunchOutcome.ok, navigateOk := true, detect := d,
    elapsedAt := fun _ => 0, slide := sl, pdfOk := true, tmp := tmp0 }

/-- Standard configuration: the defaults max_slides = 15, timeout = 180. -/
def cfg15 : RunCfg := { maxSlides := 15, timeout := 180 }

/-- Server configuration with the default limits. -/
def cfgApp : AppConfig := { MAX_SLIDES := 15, TIMEOUT := 180 }

/-- A well-formed request for a valid presentation URL asking for a budget
of 40 slides. -/
def reqDemo : AppRequest :=
  { hasJson := true, url := some "https://pitch.com/v/demo", optMaxSlides := some 40 }

/-- Tight configuration with a slide budget of 5. -/
def cfg5 : RunCfg := { maxSlides := 5, timeout := 180 }

/-- Environment for the budget counterexample: every detection strategy
fails and every capture succeeds. -/
def envFallbackOk : RunEnv := envAllOk detectFallback slideAlwaysOk

/-- Environment where the page reports 3 slides and slide 2 fails. -/
def envGap : RunEnv := envAllOk (detectVia 1 3) slidesGap

/-- Environment where the page reports 2 slides and slide 1 times out. -/
def envSkip : RunEnv := envAllOk (detectVia 1 2) slidesSkipFirst

/-- Environment where the page reports 9 slides but the clock is already
past the deadline reserve at the first iteration. -/
def envLate : RunEnv :=
  { launch := LaunchOutcome.ok, navigateOk := true, detect := detectVia 1 9,
    elapsedAt := fun _ => 1000, slide := slideAlwaysOk, pdfOk := true, tmp := tmp0 }

/-- Environment where no capture ever succeeds. -/
def envNoFrames : RunEnv := envAllOk (detectVia 1 2) slideAlwaysFail

/-- Environment where capture works but pdf assembly raises. -/
def envPdfFail : RunEnv :=
  { launch := LaunchOutcome.ok, navigateOk := true, detect := detectVia 1 2,
    elapsedAt := fun _ => 0, slide := slideAlwaysOk, pdfOk := false, tmp := tmp0 }

/-- Unfolding of one loop iteration whose clock check does not trip. -/
theorem captureLoopAux_succ_notrip (cfg : RunCfg) (env : RunEnv) (total : Int) (fuel s : Nat)
    (h : ¬(env.elapsedAt s > cfg.timeout - 30)) :
    captureLoopAux cfg env total s (fuel + 1) =
      ((match (capture_slide (env.slide s) s).1 with
        | some img => [(s, img)]
        | none => []) ++ (captureLoopAux cfg env total (s + 1) fuel).1,
       Eff.clockCheck s :: ((capture_slide (env.slide s) s).2 ++
         (if (s : Int) < total then [Eff.pressNext s] else []) ++
         (captureLoopAux cfg env total (s + 1) fuel).2)) := by
  simp only [captureLoopAux, if_neg h]

/-- Unfolding of one loop iteration whose clock check trips: the loop breaks
at once. -/
theorem captureLoopAux_succ_trip (cfg : RunCfg) (env : RunEnv) (total : Int) (fuel s : Nat)
    (h : env.elapsedAt s > cfg.timeout - 30) :
    captureLoopAux cfg env total s (fuel + 1) = ([], [Eff.clockCheck s]) := by
  simp only [captureLoopAux, if_pos h]

/-- Every effect of capture_slide acts on the slide being captured. -/
theorem capture_slide_actIdx (e : SlideEnv) (i : Nat) :
    ∀ x ∈ (capture_slide e i).2, ∀ j, Eff.actIdx x = some j → j = i := by
  intro x hx j hj
  have hx2 : x = Eff.readinessPoll i ∨ x = Eff.screenshot i := by
    cases hr : e.readiness <;> rcases hs : e.shot with _ | img <;>
      simp [capture_slide, hr, hs] at hx <;> tauto
  rcases hx2 with h | h <;> subst h <;> simp [Eff.actIdx] at hj <;> omega

/-- When the readiness poll does not succeed, capture_slide returns no image
and takes no screenshot. -/
theorem capture_slide_not_ready (e : SlideEnv) (i : Nat) (h : e.readiness ≠ ReadyOutcome.ready) :
    capture_slide e i = (none, [Eff.readinessPoll i]) := by
  cases hr : e.readiness
  · exact absurd hr h
  · simp [capture_slide, hr]
  · simp [capture_slide, hr]

/-- All frames and acting effects of the loop starting at slide s stay in
the window [s, s + fuel). -/
theorem captureLoopAux_bounds (cfg : RunCfg) (env : RunEnv) (total : Int) :
    ∀ fuel s,
      (∀ p ∈ (captureLoopAux cfg env total s fuel).1, s ≤ p.1 ∧ p.1 < s + fuel) ∧
      (∀ e ∈ (captureLoopAux cfg env total s fuel).2, ∀ j, Eff.actIdx e = some j →
        s ≤ j ∧ j < s + fuel) := by
  intro fuel
  induction fuel with
  | zero => intro s; simp [captureLoopAux]
  | succ n ih =>
    intro s
    by_cases h : env.elapsedAt s > cfg.timeout - 30
    · rw [captureLoopAux_succ_trip cfg env total n s h]
      constructor
      · simp
      · intro e he j hj
        simp at he
        subst he
        simp [Eff.actIdx] at hj
    · rw [captureLoopAux_succ_notrip cfg env total n s h]
      constructor
      · intro p hp
        simp only [List.mem_append] at hp
        rcases hp with hp | hp
        · have hp1 : p.1 = s := by
            rcases hc : (capture_slide (env.slide s) s).1 with _ | img <;> simp [hc] at hp
            · simp [hp]
          omega
        · have := (ih (s + 1)).1 p hp
          omega
      · intro e he j hj
        simp only [List.mem_cons, List.mem_append, or_assoc] at he
        rcases he with he | he | he | he
        · subst he; simp [Eff.actIdx] at hj
        · have := capture_slide_actIdx (env.slide s) s e he j hj
          omega
        · by_cases hnav : (s : Int) < total
          · simp only [if_pos hnav, List.mem_singleton] at he
            subst he; simp [Eff.actIdx] at hj; omega
          · rw [if_neg hnav] at he
            simp at he
        · have := (ih (s + 1)).2 e he j hj
          omega

/-- The loop produces at most fuel frames. -/
theorem captureLoopAux_length (cfg : RunCfg) (env : RunEnv) (total : Int) :
    ∀ fuel s, (captureLoopAux cfg env total s fuel).1.length ≤ fuel := by
  intro fuel
  induction fuel with
  | zero => intro s; simp [captureLoopAux]
  | succ n ih =>
    intro s
    by_cases h : env.elapsedAt s > cfg.timeout - 30
    · rw [captureLoopAux_succ_trip cfg env total n s h]; simp
    · rw [captureLoopAux_succ_notrip cfg env total n s h]
      have hlen : (match (capture_slide (env.slide s) s).1 with
          | some img => [(s, img)]
          | none => ([] : List (Nat × Img))).length ≤ 1 := by
        rcases hc : (capture_slide (env.slide s) s).1 with _ | img <;> simp
      have := ih (s + 1)
      simp only [List.length_append]
      omega

/-- Frame indices produced by the loop are strictly increasing. -/
theorem captureLoopAux_pairwise (cfg : RunCfg) (env : RunEnv) (total : Int) :
    ∀ fuel s, List.Pairwise (fun p q => p.1 < q.1) (captureLoopAux cfg env total s fuel).1 := by
  intro fuel
  induction fuel with
  | zero => intro s; simp [captureLoopAux]
  | succ n ih =>
    intro s
    by_cases h : env.elapsedAt s > cfg.timeout - 30
    · rw [captureLoopAux_succ_trip cfg env total n s h]; simp
    · rw [captureLoopAux_succ_notrip cfg env total n s h]
      apply List.pairwise_append.mpr
      refine ⟨?_, ih (s + 1), ?_⟩
      · rcases hc : (capture_slide (env.slide s) s).1 with _ | img <;> simp
      · intro p hp q hq
        have hp1 : p.1 = s := by
          rcases hc : (capture_slide (env.slide s) s).1 with _ | img <;> simp [hc] at hp
          · simp [hp]
        have := (captureLoopAux_bounds cfg env total n (s + 1)).1 q hq
        omega

/-- If the clock does not trip on the slides before i, the loop from s
decomposes into a part acting strictly below i followed by the loop
restarted at i. -/
theorem captureLoopAux_split (cfg : RunCfg) (env : RunEnv) (total : Int) :
    ∀ fuel s i, s ≤ i → (∀ j, s ≤ j → j < i → ¬(env.elapsedAt j > cfg.timeout - 30)) →
    ∃ F E,
      (captureLoopAux cfg env total s fuel).1 =
        F ++ (captureLoopAux cfg env total i (fuel - (i - s))).1 ∧
      (captureLoopAux cfg env total s fuel).2 =
        E ++ (captureLoopAux cfg env total i (fuel - (i - s))).2 ∧
      (∀ p ∈ F, p.1 < i) ∧ (∀ e ∈ E, ∀ j, Eff.actIdx e = some j → j < i) := by
  intro fuel
  induction fuel with
  | zero =>
    intro s i hsi hno
    refine ⟨[], [], by simp [captureLoopAux], by simp [captureLoopAux], by simp, by simp⟩
  | succ n ih =>
    intro s i hsi hno
    rcases Nat.eq_or_lt_of_le hsi with heq | hlt
    · subst heq
      refine ⟨[], [], ?_, ?_, by simp, by simp⟩ <;> simp
    · have hs : ¬(env.elapsedAt s > cfg.timeout - 30) := hno s le_rfl hlt
      obtain ⟨F, E, hF, hE, hFb, hEb⟩ :=
        ih (s + 1) i hlt (fun j h1 h2 => hno j (by omega) h2)
      have hfl : n - (i - (s + 1)) = n + 1 - (i - s) := by omega
      rw [captureLoopAux_succ_notrip cfg env total n s hs]
      refine ⟨(match (capture_slide (env.slide s) s).1 with
          | some img => [(s, img)]
          | none => []) ++ F,
        Eff.clockCheck s :: ((capture_slide (env.slide s) s).2 ++
          (if (s : Int) < total then [Eff.pressNext s] else []) ++ E), ?_, ?_, ?_, ?_⟩
      · rw [hfl] at hF
        simp [hF, List.append_assoc]
      · rw [hfl] at hE
        simp [hE, List.append_assoc]
      · intro p hp
        simp only [List.mem_append] at hp
        rcases hp with hp | hp
        · have hp1 : p.1 = s := by
            rcases hc : (capture_slide (env.slide s) s).1 with _ | img <;> simp [hc] at hp
            · simp [hp]
          omega
        · exact hFb p hp
      · intro e he j hj
        simp only [List.mem_cons, List.mem_append, or_assoc] at he
        rcases he with he | he | he | he
        · subst he; simp [Eff.actIdx] at hj
        · have := capture_slide_actIdx (env.slide s) s e he j hj
          omega
        · by_cases hnav : (s : Int) < total
          · simp only [if_pos hnav, List.mem_singleton] at he
            subst he; simp [Eff.actIdx] at hj; omega
          · rw [if_neg hnav] at he
            simp at he
        · exact hEb e he j hj

/-- A successful counter-text parse is already clamped to the budget. -/
theorem parseCounterText_le (ms : Int) (s : String) (n : Int)
    (h : parseCounterText ms s = some n) : n ≤ ms := by
  unfold parseCounterText at h
  split at h
  · split at h
    · rcases Option.map_eq_some'.mp h with ⟨t, _, ht⟩
      omega
    · exact absurd h (by simp)
  · exact absurd h (by simp)

/-- A successful text-pattern scan of one pattern is clamped to the budget. -/
theorem scanMatches_le (ms : Int) : ∀ l n, scanMatches ms l = some n → n ≤ ms := by
  intro l
  induction l with
  | nil => intro n h; simp [scanMatches] at h
  | cons p rest ih =>
    intro n h
    rcases p with ⟨c, t⟩
    unfold scanMatches at h
    split at h
    · have := Option.some.inj h
      omega
    · exact ih n h

/-- A successful text-pattern scan is clamped to the budget. -/
theorem scanPatterns_le (ms : Int) : ∀ ls n, scanPatterns ms ls = some n → n ≤ ms := by
  intro ls
  induction ls with
  | nil => intro n h; simp [scanPatterns] at h
  | cons l rest ih =>
    intro n h
    unfold scanPatterns at h
    rcases hm : scanMatches ms l with _ | m
    · rw [hm] at h
      exact ih n h
    · rw [hm] at h
      have := Option.some.inj h
      subst this
      exact scanMatches_le ms l m hm

/-- The navigation-test loop returns at most slide_count + fuel, except that
the clamped exits are bounded by the budget itself. -/
theorem navProbeGo_le (ms : Int) (steps : Nat → ProbeStep) :
    ∀ fuel i sc, navProbeGo ms steps fuel i sc ≤ max ((sc + fuel : Nat) : Int) ms := by
  intro fuel
  induction fuel with
  | zero =>
    intro i sc
    simp only [navProbeGo]
    exact le_max_of_le_right (min_le_right _ _)
  | succ n ih =>
    intro i sc
    simp only [navProbeGo]
    rcases steps i with _ | _ | _
    · exact le_max_of_le_right (min_le_right _ _)
    · apply le_max_of_le_left
      push_cast
      omega
    · have := ih (i + 1) (sc + 1)
      have harith : ((sc + 1 + n : Nat) : Int) = ((sc + (n + 1) : Nat) : Int) := by
        push_cast; omega
      rw [harith] at this
      exact this

/-- The navigation test never exceeds the budget by more than one (and never
exceeds 9 when the budget is degenerate). -/
theorem navProbe_le (ms : Int) (steps : Nat → ProbeStep) :
    navProbe ms steps ≤ max (ms + 1) 9 := by
  have h := navProbeGo_le ms steps (min 20 ms).toNat 0 1
  unfold navProbe
  rcases le_or_lt ms 0 with hms | hms
  · have h0 : (min 20 ms).toNat = 0 := by omega
    rw [h0] at h ⊢
    have : max ((1 + 0 : Nat) : Int) ms ≤ max (ms + 1) 9 := by
      simp only [Nat.add_zero, Nat.cast_one]
      omega
    exact le_trans h this
  · have h1 : ((min 20 ms).toNat : Int) ≤ ms := by omega
    have : max ((1 + (min 20 ms).toNat : Nat) : Int) ms ≤ max (ms + 1) 9 := by
      push_cast
      omega
    exact le_trans h this

/-- The slide-count estimate is bounded by max(budget + 1, 9): the first two
strategies clamp to the budget, the probe can exceed it by one, and the
fallback is the unclamped constant 9. -/
theorem detect_slide_count_le (ms : Int) (env : DetectEnv) :
    detect_slide_count ms env ≤ max (ms + 1) 9 := by
  unfold detect_slide_count
  rcases h1 : env.counterText.bind (fun s => parseCounterText ms s) with _ | n
  · rcases h2 : (if env.textSearchError then none else scanPatterns ms env.textMatches) with _ | n
    · by_cases h3 : env.navSetupError
      · rw [if_pos h3]
        exact le_max_right _ _
      · rw [if_neg h3]
        exact navProbe_le ms env.navSteps
    · show n ≤ max (ms + 1) 9
      by_cases h4 : env.textSearchError
      · rw [if_pos h4] at h2; exact absurd h2 (by simp)
      · rw [if_neg h4] at h2
        have := scanPatterns_le ms env.textMatches n h2
        omega
  · show n ≤ max (ms + 1) 9
    rcases Option.bind_eq_some.mp h1 with ⟨s, _, hp⟩
    have := parseCounterText_le ms s n hp
    omega

/-- With a healthy launch and navigation, the result frames are exactly the
capture-loop frames. -/
theorem download_frames (cfg : RunCfg) (env : RunEnv)
    (h1 : env.launch = LaunchOutcome.ok) (h2 : env.navigateOk = true) :
    (download_presentation cfg env).1.frames =
      (captureLoop cfg env (detect_slide_count cfg.maxSlides env.detect)).1 := by
  unfold download_presentation downloadBody browserLaunched
  rw [h1, h2]
  by_cases hl : (captureLoop cfg env (detect_slide_count cfg.maxSlides env.detect)).1 = []
  · simp [hl, failResult]
  · by_cases hp : env.pdfOk = false
    · simp [hl, hp, failResult]
    · simp [hl, hp]

/-- On the paths that never reach the capture loop the result carries no
frames. -/
theorem download_frames_other (cfg : RunCfg) (env : RunEnv)
    (h : env.launch ≠ LaunchOutcome.ok ∨ env.navigateOk = false) :
    (download_presentation cfg env).1.frames = [] := by
  unfold download_presentation downloadBody browserLaunched
  cases hl : env.launch
  · simp [failResult]
  · simp [failResult]
  · rcases h with h | h
    · exact absurd hl h
    · rw [h]
      simp [failResult]

/-- With a healthy launch and navigation, the effect trace is the four setup
effects, the capture-loop trace, and a closing tail without slide-indexed
effects. -/
theorem download_effs (cfg : RunCfg) (env : RunEnv)
    (h1 : env.launch = LaunchOutcome.ok) (h2 : env.navigateOk = true) :
    ∃ tail,
      (download_presentation cfg env).2 =
        Eff.launchBrowser :: Eff.navigate :: Eff.detectSlides :: Eff.pressHome ::
          ((captureLoop cfg env (detect_slide_count cfg.maxSlides env.detect)).2 ++ tail) ∧
      ∀ e ∈ tail, Eff.actIdx e = none := by
  unfold download_presentation downloadBody browserLaunched
  rw [h1, h2]
  by_cases hl : (captureLoop cfg env (detect_slide_count cfg.maxSlides env.detect)).1 = []
  · refine ⟨[Eff.closeBrowser], ?_, ?_⟩
    · simp [hl]
    · intro e he
      simp at he
      subst he
      rfl
  · by_cases hp : env.pdfOk = false
    · refine ⟨[Eff.assemble, Eff.closeBrowser], ?_, ?_⟩
      · simp [hl, hp]
      · intro e he
        rcases List.mem_cons.mp he with he | he
        · subst he; rfl
        · simp at he
          subst he
          rfl
    · refine ⟨[Eff.assemble, Eff.closeBrowser], ?_, ?_⟩
      · simp [hl, hp]
      · intro e he
        rcases List.mem_cons.mp he with he | he
        · subst he; rfl
        · simp at he
          subst he
          rfl

/-- With a healthy launch and navigation, the final result is determined by
the capture-loop frames and the pdf outcome. -/
theorem download_finalize (cfg : RunCfg) (env : RunEnv)
    (h1 : env.launch = LaunchOutcome.ok) (h2 : env.navigateOk = true) :
    ((captureLoop cfg env (detect_slide_count cfg.maxSlides env.detect)).1 = [] →
      (download_presentation cfg env).1 = failResult "No slides captured" []) ∧
    ((captureLoop cfg env (detect_slide_count cfg.maxSlides env.detect)).1 ≠ [] →
      env.pdfOk = false →
      (download_presentation cfg env).1 =
        failResult "PDF creation failed"
          (captureLoop cfg env (detect_slide_count cfg.maxSlides env.detect)).1) ∧
    ((captureLoop cfg env (detect_slide_count cfg.maxSlides env.detect)).1 ≠ [] →
      env.pdfOk = true →
      (download_presentation cfg env).1.success = true ∧
      (download_presentation cfg env).1.error = none ∧
      (download_presentation cfg env).1.slides =
        (captureLoop cfg env (detect_slide_count cfg.maxSlides env.detect)).1.length) := by
  refine ⟨?_, ?_, ?_⟩ <;> unfold download_presentation downloadBody browserLaunched <;> rw [h1, h2]
  · intro hl
    simp [hl]
  · intro hl hp
    simp [hl, hp]
  · intro hl hp
    simp [hl, hp]

/-- C1, amended: the number of captured frames never exceeds the slide-count
estimate, and the estimate is bounded by max(slideBudget + 1, 9) — the
counter-text and text-pattern strategies clamp to the budget, but the
navigation probe's disabled-button exit can exceed the budget by one and the
fixed fallback default 9 is not clamped at all, so the estimate (and hence
the frame count) is not always clamped to min(slideBudget, estimatedCount). -/
theorem c1_budget_clamp_amended (cfg : RunCfg) (env : RunEnv) :
    (download_presentation cfg env).1.frames.length ≤
      (detect_slide_count cfg.maxSlides env.detect).toNat ∧
    detect_slide_count cfg.maxSlides env.detect ≤ max (cfg.maxSlides + 1) 9 := by
  constructor
  · by_cases h1 : env.launch = LaunchOutcome.ok
    · by_cases h2 : env.navigateOk = true
      · rw [download_frames cfg env h1 h2]
        exact captureLoopAux_length cfg env _ _ 1
      · rw [download_frames_other cfg env (Or.inr (by simpa using h2))]
        simp
    · rw [download_frames_other cfg env (Or.inl h1)]
      simp
  · exact detect_slide_count_le cfg.maxSlides env.detect

/-- C1 fails as stated: with a slide budget of 5 and every detection
strategy failing, the estimate is the unclamped fallback 9 and the session
captures 9 frames, exceeding min(slideBudget, estimatedCount) = 5. -/
theorem c1_budget_clamp_counterexample :
    detect_slide_count cfg5.maxSlides envFallbackOk.detect = 9 ∧
    ¬(detect_slide_count cfg5.maxSlides envFallbackOk.detect ≤ cfg5.maxSlides) ∧
    (download_presentation cfg5 envFallbackOk).1.frames.length = 9 ∧
    ¬((download_presentation cfg5 envFallbackOk).1.frames.length ≤
        min 5 (detect_slide_count cfg5.maxSlides envFallbackOk.detect).toNat) := by
  refine ⟨by decide, by decide, by decide, by decide⟩

/-- C2, amended: when the readiness poll window of slide i is exhausted (or
the probe errors), no screenshot of slide i is taken and no frame for i is
appended — the capture is skipped, not taken — but the session is not
aborted: the readiness poll did run and, unless i was the last slide, the
loop still advances to the next slide. -/
theorem c2_timeout_skip_amended (cfg : RunCfg) (env : RunEnv) (i : Nat)
    (h1 : env.launch = LaunchOutcome.ok) (h2 : env.navigateOk = true)
    (hi1 : 1 ≤ i) (hitot : (i : Int) ≤ detect_slide_count cfg.maxSlides env.detect)
    (hclock : ∀ j, 1 ≤ j → j ≤ i → ¬(env.elapsedAt j > cfg.timeout - 30))
    (hready : (env.slide i).readiness ≠ ReadyOutcome.ready) :
    Eff.readinessPoll i ∈ (download_presentation cfg env).2 ∧
    Eff.screenshot i ∉ (download_presentation cfg env).2 ∧
    (∀ p ∈ (download_presentation cfg env).1.frames, p.1 ≠ i) ∧
    ((i : Int) < detect_slide_count cfg.maxSlides env.detect →
      Eff.pressNext i ∈ (download_presentation cfg env).2) := by
  obtain ⟨tail, htail, htail0⟩ := download_effs cfg env h1 h2
  have hframes := download_frames cfg env h1 h2
  obtain ⟨F, E, hF, hE, hFb, hEb⟩ :=
    captureLoopAux_split cfg env (detect_slide_count cfg.maxSlides env.detect)
      (detect_slide_count cfg.maxSlides env.detect).toNat 1 i hi1
      (fun j hj1 hj2 => hclock j hj1 (by omega))
  obtain ⟨k, hk⟩ : ∃ k, (detect_slide_count cfg.maxSlides env.detect).toNat - (i - 1) = k + 1 :=
    ⟨(detect_slide_count cfg.maxSlides env.detect).toNat - (i - 1) - 1, by omega⟩
  rw [hk] at hF hE
  have hnotrip : ¬(env.elapsedAt i > cfg.timeout - 30) := hclock i hi1 le_rfl
  have hcap := capture_slide_not_ready (env.slide i) i hready
  have hun := captureLoopAux_succ_notrip cfg env
    (detect_slide_count cfg.maxSlides env.detect) k i hnotrip
  rw [hcap] at hun
  simp at hun
  rw [hun] at hF hE
  simp only [] at hF hE
  have hrest := captureLoopAux_bounds cfg env (detect_slide_count cfg.maxSlides env.detect) k (i + 1)
  unfold captureLoop at hframes htail
  rw [hF] at hframes
  rw [hE] at htail
  refine ⟨?_, ?_, ?_, ?_⟩
  · rw [htail]
    simp
  · intro hmem
    rw [htail] at hmem
    simp only [List.mem_cons, List.mem_append] at hmem
    rcases hmem with h | h | h | h | (h | h | h | h | h) | h
    · simp at h
    · simp at h
    · simp at h
    · simp at h
    · have := hEb _ h i rfl
      omega
    · simp at h
    · simp at h
    · by_cases hnav : ((i : Int) < detect_slide_count cfg.maxSlides env.detect)
      · rw [if_pos hnav] at h
        simp at h
      · rw [if_neg hnav] at h
        simp at h
    · have := hrest.2 _ h i rfl
      omega
    · have := htail0 _ h
      simp [Eff.actIdx] at this
  · intro p hp
    rw [hframes] at hp
    rcases List.mem_append.mp hp with hp | hp
    · have := hFb p hp
      omega
    · have := hrest.1 p hp
      omega
  · intro hnav
    rw [htail]
    simp [hnav]

/-- C2 fails as stated: in a 2-slide session where slide 1 times out its
readiness poll, no screenshot of slide 1 is ever taken and the session ends
successfully with only slide 2 captured. -/
theorem c2_timeout_skip_counterexample :
    (envSkip.slide 1).readiness = ReadyOutcome.timeout ∧
    Eff.readinessPoll 1 ∈ (download_presentation cfg15 envSkip).2 ∧
    Eff.screenshot 1 ∉ (download_presentation cfg15 envSkip).2 ∧
    (download_presentation cfg15 envSkip).1.frames.map Prod.fst = [2] ∧
    (download_presentation cfg15 envSkip).1.success = true := by
  refine ⟨by decide, by decide, by decide, by decide, by decide⟩

/-- Witness for the amended C2 theorem at a concrete session in which
slide 2 of 3 times out its readiness poll. -/
theorem c2_timeout_skip_witness :
    Eff.readinessPoll 2 ∈ (download_presentation cfg15 envGap).2 ∧
    Eff.screenshot 2 ∉ (download_presentation cfg15 envGap).2 ∧
    Eff.pressNext 2 ∈ (download_presentation cfg15 envGap).2 := by
  have h := c2_timeout_skip_amended cfg15 envGap 2 rfl rfl (by decide) (by decide)
    (fun j hj1 hj2 => by
      show ¬((0 : Int) > 180 - 30)
      decide)
    (by decide)
  exact ⟨h.1, h.2.1, h.2.2.2 (by decide)⟩

/-- C3, amended: the wall-clock budget is checked at the top of every
per-slide iteration, and once a check trips no capture or navigation effect
is issued for that slide or any later one; the frames captured before the
trip are kept, and the session finalizes successfully provided at least one
frame was captured and assembly succeeds — but with zero frames it
finalizes as a failure with the no-frames error, so the status is not
always non-Failed. -/
theorem c3_deadline_stop_amended (cfg : RunCfg) (env : RunEnv) (i : Nat)
    (h1 : env.launch = LaunchOutcome.ok) (h2 : env.navigateOk = true)
    (hi1 : 1 ≤ i) (hitot : (i : Int) ≤ detect_slide_count cfg.maxSlides env.detect)
    (htrip : env.elapsedAt i > cfg.timeout - 30)
    (hbefore : ∀ j, 1 ≤ j → j < i → ¬(env.elapsedAt j > cfg.timeout - 30)) :
    (∀ e ∈ (download_presentation cfg env).2, ∀ j, Eff.actIdx e = some j → j < i) ∧
    (∀ p ∈ (download_presentation cfg env).1.frames, p.1 < i) ∧
    ((download_presentation cfg env).1.frames = [] →
      (download_presentation cfg env).1.success = false ∧
      (download_presentation cfg env).1.error = some "No slides captured") ∧
    ((download_presentation cfg env).1.frames ≠ [] → env.pdfOk = true →
      (download_presentation cfg env).1.success = true ∧
      (download_presentation cfg env).1.slides =
        (download_presentation cfg env).1.frames.length) := by
  obtain ⟨tail, htail, htail0⟩ := download_effs cfg env h1 h2
  have hframes := download_frames cfg env h1 h2
  have hfin := download_finalize cfg env h1 h2
  obtain ⟨F, E, hF, hE, hFb, hEb⟩ :=
    captureLoopAux_split cfg env (detect_slide_count cfg.maxSlides env.detect)
      (detect_slide_count cfg.maxSlides env.detect).toNat 1 i hi1 hbefore
  obtain ⟨k, hk⟩ : ∃ k, (detect_slide_count cfg.maxSlides env.detect).toNat - (i - 1) = k + 1 :=
    ⟨(detect_slide_count cfg.maxSlides env.detect).toNat - (i - 1) - 1, by omega⟩
  rw [hk] at hF hE
  have hun := captureLoopAux_succ_trip cfg env
    (detect_slide_count cfg.maxSlides env.detect) k i htrip
  rw [hun] at hF hE
  simp only [List.append_nil] at hF
  unfold captureLoop at hframes htail hfin
  rw [hF] at hframes hfin
  rw [hE] at htail
  refine ⟨?_, ?_, ?_, ?_⟩
  · intro e he j hj
    rw [htail] at he
    simp only [List.mem_cons, List.mem_append, List.mem_singleton, List.not_mem_nil,
      or_false] at he
    rcases he with h | h | h | h | (h | h) | h
    · subst h; simp [Eff.actIdx] at hj
    · subst h; simp [Eff.actIdx] at hj
    · subst h; simp [Eff.actIdx] at hj
    · subst h; simp [Eff.actIdx] at hj
    · exact hEb e h j hj
    · subst h; simp [Eff.actIdx] at hj
    · have := htail0 e h
      rw [this] at hj
      exact absurd hj (by simp)
  · intro p hp
    rw [hframes] at hp
    exact hFb p hp
  · intro hempty
    rw [hframes] at hempty
    have := hfin.1 hempty
    rw [this]
    exact ⟨rfl, rfl⟩
  · intro hne hpdf
    rw [hframes] at hne
    have h3 := hfin.2.2 hne hpdf
    refine ⟨h3.1, ?_⟩
    rw [hframes]
    exact h3.2.2

/-- C3 fails as stated: when the deadline reserve is already exceeded at the
first iteration, the clock check trips before any capture, zero frames are
kept, and the session finalizes as a failure — a deadline expiry mid-run
does not always end with a non-Failed status. -/
theorem c3_deadline_stop_counterexample :
    (envLate.elapsedAt 1 > cfg15.timeout - 30) ∧
    (download_presentation cfg15 envLate).2 =
      [Eff.launchBrowser, Eff.navigate, Eff.detectSlides, Eff.pressHome,
       Eff.clockCheck 1, Eff.closeBrowser] ∧
    (download_presentation cfg15 envLate).1.frames = [] ∧
    (download_presentation cfg15 envLate).1.success = false ∧
    (download_presentation cfg15 envLate).1.error = some "No slides captured" := by
  refine ⟨by decide, by decide, by decide, by decide, by decide⟩

/-- Witness for the amended C3 theorem at a concrete session. -/
theorem c3_deadline_stop_witness :
    (download_presentation cfg15 envLate).1.success = false ∧
    (download_presentation cfg15 envLate).1.error = some "No slides captured" := by
  have h := c3_deadline_stop_amended cfg15 envLate 1 rfl rfl le_rfl (by decide) (by decide)
    (fun j hj1 hj2 => absurd (lt_of_le_of_lt hj1 hj2) (lt_irrefl 1))
  exact h.2.2.1 (by decide)

/-- C4: a session succeeds only with at least one captured frame (the
reported slide count then equals the frame count and is at least 1), a
zero-frame result is never a success, and a session that reached the
capture phase and ended with zero frames fails with the distinct error
message reserved for that case. -/
theorem c4_no_frames_failure (cfg : RunCfg) (env : RunEnv) :
    ((download_presentation cfg env).1.success = true →
      (download_presentation cfg env).1.frames ≠ [] ∧
      1 ≤ (download_presentation cfg env).1.slides ∧
      (download_presentation cfg env).1.slides =
        (download_presentation cfg env).1.frames.length) ∧
    ((download_presentation cfg env).1.frames = [] →
      (download_presentation cfg env).1.success = false) ∧
    (env.launch = LaunchOutcome.ok → env.navigateOk = true →
      (download_presentation cfg env).1.frames = [] →
      (download_presentation cfg env).1.error = some "No slides captured") := by
  by_cases h1 : env.launch = LaunchOutcome.ok
  · by_cases h2 : env.navigateOk = true
    · have hframes := download_frames cfg env h1 h2
      have hfin := download_finalize cfg env h1 h2
      by_cases hl : (captureLoop cfg env (detect_slide_count cfg.maxSlides env.detect)).1 = []
      · have hres := hfin.1 hl
        refine ⟨?_, ?_, ?_⟩
        · intro hs
          rw [hres] at hs
          exact absurd hs (by simp [failResult])
        · intro _
          rw [hres]
          rfl
        · intro _ _ _
          rw [hres]
          rfl
      · by_cases hp : env.pdfOk = true
        · have hres := hfin.2.2 hl hp
          refine ⟨?_, ?_, ?_⟩
          · intro _
            refine ⟨by rw [hframes]; exact hl, ?_, by rw [hres.2.2, hframes]⟩
            rw [hres.2.2]
            have := List.length_pos.mpr hl
            omega
          · intro hempty
            rw [hframes] at hempty
            exact absurd hempty hl
          · intro _ _ hempty
            rw [hframes] at hempty
            exact absurd hempty hl
        · have hres := hfin.2.1 hl (by simpa using hp)
          refine ⟨?_, ?_, ?_⟩
          · intro hs
            rw [hres] at hs
            exact absurd hs (by simp [failResult])
          · intro _
            rw [hres]
            rfl
          · intro _ _ hempty
            rw [hframes] at hempty
            exact absurd hempty hl
    · have hres : (download_presentation cfg env).1.frames = [] :=
        download_frames_other cfg env (Or.inr (by simpa using h2))
      have hsucc : (download_presentation cfg env).1.success = false := by
        unfold download_presentation downloadBody browserLaunched
        rw [h1]
        have h2f : env.navigateOk = false := by simpa using h2
        rw [h2f]
        simp [failResult]
      refine ⟨?_, fun _ => hsucc, ?_⟩
      · intro hs
        rw [hsucc] at hs
        exact absurd hs (by simp)
      · intro _ hnv _
        exact absurd hnv h2
  · have hsucc : (download_presentation cfg env).1.success = false := by
      unfold download_presentation downloadBody browserLaunched
      cases hl : env.launch
      · simp [failResult]
      · simp [failResult]
      · exact absurd hl h1
    refine ⟨?_, fun _ => hsucc, ?_⟩
    · intro hs
      rw [hsucc] at hs
      exact absurd hs (by simp)
    · intro hlk _ _
      exact absurd hlk h1

/-- Witness for C4 at a concrete session with zero captured frames. -/
theorem c4_no_frames_failure_witness :
    (download_presentation cfg15 envNoFrames).1.error = some "No slides captured" ∧
    (download_presentation cfg15 envNoFrames).1.success = false := by
  have h := c4_no_frames_failure cfg15 envNoFrames
  exact ⟨h.2.2 rfl rfl (by decide), h.2.1 (by decide)⟩

/-- C5, amended: the frame sequence is strictly ascending by slide index
with no duplicates, and every index lies between 1 and the estimate; but
the indices need not form a contiguous prefix 1..k — any slide whose
capture fails is simply omitted, leaving a gap in the middle even without
any deadline expiry. -/
theorem c5_frames_ascending_amended (cfg : RunCfg) (env : RunEnv) :
    List.Pairwise (· < ·) ((download_presentation cfg env).1.frames.map Prod.fst) ∧
    ((download_presentation cfg env).1.frames.map Prod.fst).Nodup ∧
    ∀ j ∈ (download_presentation cfg env).1.frames.map Prod.fst,
      1 ≤ j ∧ (j : Int) ≤ detect_slide_count cfg.maxSlides env.detect := by
  have key : ∀ l : List (Nat × Img),
      l = (download_presentation cfg env).1.frames →
      List.Pairwise (fun p q : Nat × Img => p.1 < q.1) l →
      (∀ p ∈ l, 1 ≤ p.1 ∧ (p.1 : Int) ≤ detect_slide_count cfg.maxSlides env.detect) →
      List.Pairwise (· < ·) ((download_presentation cfg env).1.frames.map Prod.fst) ∧
      ((download_presentation cfg env).1.frames.map Prod.fst).Nodup ∧
      ∀ j ∈ (download_presentation cfg env).1.frames.map Prod.fst,
        1 ≤ j ∧ (j : Int) ≤ detect_slide_count cfg.maxSlides env.detect := by
    intro l hl hpw hbd
    subst hl
    refine ⟨List.pairwise_map.mpr hpw, ?_, ?_⟩
    · exact (List.pairwise_map.mpr hpw).imp (fun h => Nat.ne_of_lt h)
    · intro j hj
      rcases List.mem_map.mp hj with ⟨p, hp, hpj⟩
      rcases hbd p hp with ⟨hb1, hb2⟩
      exact ⟨by omega, by rw [← hpj]; exact hb2⟩
  by_cases h1 : env.launch = LaunchOutcome.ok
  · by_cases h2 : env.navigateOk = true
    · have hframes := download_frames cfg env h1 h2
      refine key _ rfl ?_ ?_
      · rw [hframes]
        exact captureLoopAux_pairwise cfg env _ _ 1
      · intro p hp
        rw [hframes] at hp
        have := (captureLoopAux_bounds cfg env (detect_slide_count cfg.maxSlides env.detect)
          (detect_slide_count cfg.maxSlides env.detect).toNat 1).1 p hp
        constructor
        · omega
        · omega
    · have h := download_frames_other cfg env (Or.inr (by simpa using h2))
      refine key _ rfl ?_ ?_ <;> rw [h] <;> simp
  · have h := download_frames_other cfg env (Or.inl h1)
    refine key _ rfl ?_ ?_ <;> rw [h] <;> simp

/-- Witness for the amended C5 theorem at a concrete session. -/
theorem c5_frames_ascending_witness :
    List.Pairwise (· < ·) ((download_presentation cfg15 envGap).1.frames.map Prod.fst) ∧
    ((download_presentation cfg15 envGap).1.frames.map Prod.fst).Nodup ∧
    (1 ≤ 1 ∧ ((1 : Nat) : Int) ≤ detect_slide_count cfg15.maxSlides envGap.detect) := by
  have h := c5_frames_ascending_amended cfg15 envGap
  exact ⟨h.1, h.2.1, h.2.2 1 (by decide)⟩

/-- C5 fails as stated: in a 3-slide session where only slide 2's capture
fails (with the clock far from the deadline), the kept indices are [1, 3] —
a gap in the middle, not a trailing truncation, so the frames are not a
contiguous prefix 1..k. -/
theorem c5_frames_ascending_counterexample :
    (download_presentation cfg15 envGap).1.frames.map Prod.fst = [1, 3] ∧
    (download_presentation cfg15 envGap).1.success = true ∧
    ¬ contiguousFrom1 ((download_presentation cfg15 envGap).1.frames.map Prod.fst) := by
  have h13 : (download_presentation cfg15 envGap).1.frames.map Prod.fst = [1, 3] := by decide
  refine ⟨h13, by decide, ?_⟩
  rw [h13]
  intro h
  unfold contiguousFrom1 at h
  exact absurd h (by decide)

/-- C6: the counter-text strategy has highest priority and its first success
wins — whenever the counter element text splits on the slash into two parts
whose second parses as the integer M, the estimate is min(M, budget),
whatever the page text, DOM or navigation probe would have produced (the
theorem holds for every detection environment carrying that counter text, so
no later strategy influences the result). -/
theorem c6_counter_first (ms : Int) (env : DetectEnv) (s p1 p2 : String) (M : Int)
    (hc : env.counterText = some s) (hne : s ≠ "") (hsl : s.toList.contains '/' = true)
    (hsplit : pySplit '/' s = [p1, p2]) (hparse : pyInt (pyStrip p2) = some M) :
    detect_slide_count ms env = min M ms := by
  unfold detect_slide_count
  rw [hc]
  have hp : parseCounterText ms s = some (min M ms) := by
    unfold parseCounterText
    rw [if_pos ⟨hne, hsl⟩, hsplit]
    show Option.map (fun total => min total ms) (pyInt (pyStrip p2)) = some (min M ms)
    rw [hparse]
    rfl
  simp only [Option.some_bind, hp]

/-- Witness for C6: counter text 4/12 with budget 15 yields the estimate 12
for an environment whose other strategies would all fail. -/
theorem c6_counter_first_witness :
    detect_slide_count 15 (detectCounter "4/12") = 12 := by
  have h := c6_counter_first 15 (detectCounter "4/12") "4/12" "4" "12" 12 rfl (by decide)
    (by decide) (by decide) (by decide)
  rw [h]
  decide

/-- The page images of the assembly loop are the input screenshots, in
order. -/
theorem buildPages_map_image : ∀ l : List Img, (buildPages l).map PdfPage.image = l := by
  intro l
  induction l with
  | nil => rfl
  | cons s rest ih => simp [buildPages, ih]

/-- The assembly loop commits exactly one page per screenshot. -/
theorem buildPages_length : ∀ l : List Img, (buildPages l).length = l.length := by
  intro l
  induction l with
  | nil => rfl
  | cons s rest ih => simp [buildPages, ih]

/-- Every assembled page is a full landscape(letter) page. -/
theorem buildPages_landscape : ∀ l : List Img, ∀ p ∈ buildPages l, p.width = 792 ∧ p.height = 612 := by
  intro l
  induction l with
  | nil => intro p hp; simp [buildPages] at hp
  | cons s rest ih =>
    intro p hp
    rcases List.mem_cons.mp hp with h | h
    · subst h; exact ⟨rfl, rfl⟩
    · exact ih p h

/-- C7: document assembly is deterministic in page structure — for every
nonempty ordered frame sequence (the source only assembles nonempty ones)
the assembled document has exactly one full-page landscape page per frame in
frame order, and two assembly runs of the same sequence, even with different
temp-file names, produce the same page count and page order. -/
theorem c7_assembly_deterministic (shots : List Img) (t1 t2 : Nat → String)
    (_hne : shots ≠ []) :
    (create_pdf_from_screenshots t1 shots).2 = (create_pdf_from_screenshots t2 shots).2 ∧
    (create_pdf_from_screenshots t1 shots).2.map PdfPage.image = shots ∧
    (create_pdf_from_screenshots t1 shots).2.length = shots.length ∧
    ∀ p ∈ (create_pdf_from_screenshots t1 shots).2, p.width = 792 ∧ p.height = 612 := by
  exact ⟨rfl, buildPages_map_image shots, buildPages_length shots, buildPages_landscape shots⟩

/-- Witness for C7 at a concrete two-frame sequence and two distinct
temp-file namers. -/
theorem c7_assembly_deterministic_witness :
    (create_pdf_from_screenshots tmp0 [[1], [2]]).2 =
      (create_pdf_from_screenshots (fun _n => "other") [[1], [2]]).2 ∧
    (create_pdf_from_screenshots tmp0 [[1], [2]]).2.map PdfPage.image = [[1], [2]] ∧
    (create_pdf_from_screenshots tmp0 [[1], [2]]).2.length = 2 := by
  have h := c7_assembly_deterministic [[1], [2]] tmp0 (fun _n => "other") (by decide)
  exact ⟨h.1, h.2.1, h.2.2.1⟩

/-- C8: the browser surface is released on every exit path — whenever
launch() returned a browser object (even if newPage, navigation, capture or
assembly subsequently failed), the finally clause closes it before
download_presentation returns. -/
theorem c8_browser_closed (cfg : RunCfg) (env : RunEnv)
    (h : browserLaunched env = true) :
    Eff.closeBrowser ∈ (download_presentation cfg env).2 := by
  unfold download_presentation
  rw [if_pos h]
  exact List.mem_append_right _ (List.mem_singleton.mpr rfl)

/-- Witness for C8 on a session whose pdf assembly raises mid-run. -/
theorem c8_browser_closed_witness :
    Eff.closeBrowser ∈ (download_presentation cfg15 envPdfFail).2 :=
  c8_browser_closed cfg15 envPdfFail rfl

/-- C9: for every accepted download request the downloader is constructed
with the slide budget min(requested max_slides, MAX_SLIDES): the caller can
lower the budget below the server limit but never raise it above, and an
omitted option yields the server default. -/
theorem c9_effective_budget (cfg : AppConfig) (req : AppRequest) (env : RunEnv) (u : String)
    (hj : req.hasJson = true) (hu : req.url = some u) (hne : u ≠ "")
    (hv : validate_pitch_url u = true) :
    AppEffect.createDownloader (effectiveMaxSlides cfg req) cfg.TIMEOUT ∈
      (app_download cfg req env).2 ∧
    effectiveMaxSlides cfg req ≤ cfg.MAX_SLIDES ∧
    (∀ r, req.optMaxSlides = some r → effectiveMaxSlides cfg req = min r cfg.MAX_SLIDES) ∧
    (req.optMaxSlides = none → effectiveMaxSlides cfg req = cfg.MAX_SLIDES) := by
  refine ⟨?_, min_le_right _ _, ?_, ?_⟩
  · unfold app_download
    rw [hj, hu]
    have hvf : ¬(validate_pitch_url u = false) := by simp [hv]
    simp only [hne, hvf]
    by_cases hs : (download_presentation
        { maxSlides := effectiveMaxSlides cfg req, timeout := cfg.TIMEOUT } env).1.success = false
    · simp [hs]
    · simp [hs]
  · intro r hr
    unfold effectiveMaxSlides
    rw [hr]
    rfl
  · intro hr
    unfold effectiveMaxSlides
    rw [hr]
    simp

/-- Witness for C9 at a concrete request asking for 40 slides against a
server limit of 15. -/
theorem c9_effective_budget_witness :
    AppEffect.createDownloader (effectiveMaxSlides cfgApp reqDemo) cfgApp.TIMEOUT ∈
      (app_download cfgApp reqDemo envFallbackOk).2 ∧
    effectiveMaxSlides cfgApp reqDemo = 15 := by
  have h := c9_effective_budget cfgApp reqDemo envFallbackOk "https://pitch.com/v/demo" rfl rfl
    (by decide) (by decide)
  refine ⟨h.1, ?_⟩
  have h40 := h.2.2.1 40 rfl
  rw [h40]
  decide

end PitchDeck
